import Mathlib

/-!
Verification development for the metric computation engine in
src/src/metrics.py of the decompiler-evaluation repository.

The data model of the upstream comparison engine (modules `lang` and
`compare_unoptimized`, which are not part of this repository snapshot)
is modelled from the specification; every definition whose doc comment
starts with "Modelled from the spec" belongs to that layer.  All other
definitions are direct shallow embeddings of the functions in
src/src/metrics.py: Python ints become `Int`, Python floats become `ℚ`,
Python `None` becomes `Option.none` (or the `PyResult.pyNone` marker for
metric results), and a raised exception becomes `PyResult.exn`.
-/

/-- Modelled from the spec: the address-kind tag of a varnode address
(absolute/global, stack, or other such as register storage); the `lang`
module defining `AddressType` is not in the repository snapshot. -/
inductive AddressType where
  | ABSOLUTE
  | STACK
  | OTHER
  deriving DecidableEq

/-- Modelled from the spec: an address exposes its address-kind tag. -/
structure Address where
  addrtype : AddressType
  deriving DecidableEq

/-- Modelled from the spec: coarse type-kind tag (metatype). -/
inductive MetaType where
  | INT
  | FLOAT
  | POINTER
  | ARRAY
  | STRUCT
  | UNION
  | OTHER
  deriving DecidableEq

/-- Modelled from the spec: the datatype attributes read by metrics.py —
metatype, byte size, array element count and dimensionality. -/
structure DataType where
  metatype : MetaType
  size : Int
  num_elements : Int
  num_dimensions : Int
  deriving DecidableEq

/-- Modelled from the spec: the variable attributes read by the base
filter ("is parameter", "has a single storage location"). -/
structure Variable where
  is_param : Bool
  is_single_loc : Bool
  deriving DecidableEq

/-- Modelled from the spec: a varnode — address, byte size, datatype and
optional owning variable. -/
structure Varnode where
  addr : Address
  size : Int
  datatype : DataType
  var : Option Variable
  deriving DecidableEq

/-- Modelled from the spec: one concrete ground-truth/recovered varnode
pair (VarnodeCompare2), exposing left/right varnode accessors. -/
structure VarnodeCompare2 where
  get_left : Varnode
  get_right : Varnode
  deriving DecidableEq

/-- Modelled from the spec: a VarnodeCompareRecord exposes its
ground-truth varnode, its ordinal compare level and the byte-overlap
count with its matched varnode(s). -/
structure VarnodeCompareRecord where
  get_varnode : Varnode
  get_compare_level : Int
  bytes_overlapped : Int
  deriving DecidableEq

/-- Modelled from the spec: a ground-truth or recovered function; its
payload is opaque to metrics.py, so a name suffices. -/
structure UnoptimizedFunction where
  name : String
  deriving DecidableEq

/-- Modelled from the spec: a FunctionCompareRecord associates a
ground-truth function with a matched ("is a comparison") status. -/
structure UnoptimizedFunctionCompareRecord where
  get_unoptimized_function : UnoptimizedFunction
  is_comparison : Bool
  deriving DecidableEq

/-- Modelled from the spec: the part of the program model read by
metrics.py — its collection of functions. -/
structure UnoptimizedProgramInfo where
  get_unoptimized_functions : List UnoptimizedFunction
  deriving DecidableEq

/-- Modelled from the spec: one orientation of a comparison — a program
together with the derived compare records that the comparison object
exposes to metrics.py for that orientation. -/
structure CmpView where
  prog : UnoptimizedProgramInfo
  function_compare_records : List UnoptimizedFunctionCompareRecord
  varnode_compare_records : List VarnodeCompareRecord
  primitive_varnode_compare_records : List VarnodeCompareRecord
  deriving DecidableEq

/-- Modelled from the spec: the comparison object
(UnoptimizedProgramInfoCompare2) is an ordered pair of orientation
views; `flip` swaps them, so `flip (flip c) = c` holds by construction,
realising the upstream contract that flip is an involution up to
observational equivalence. -/
structure UnoptimizedProgramInfoCompare2 where
  fwd : CmpView
  bwd : CmpView
  deriving DecidableEq

/-- Modelled from the spec: the ground-truth program of a comparison. -/
def UnoptimizedProgramInfoCompare2.get_left (c : UnoptimizedProgramInfoCompare2) : UnoptimizedProgramInfo :=
  c.fwd.prog

/-- Modelled from the spec: the recovered program of a comparison. -/
def UnoptimizedProgramInfoCompare2.get_right (c : UnoptimizedProgramInfoCompare2) : UnoptimizedProgramInfo :=
  c.bwd.prog

/-- Modelled from the spec: flip produces a new comparison with the
left/right roles (and all derived records) swapped. -/
def UnoptimizedProgramInfoCompare2.flip (c : UnoptimizedProgramInfoCompare2) : UnoptimizedProgramInfoCompare2 :=
  ⟨c.bwd, c.fwd⟩

/-- Modelled from the spec: all FunctionCompareRecords of the current
orientation. -/
def UnoptimizedProgramInfoCompare2.select_function_compare_records (c : UnoptimizedProgramInfoCompare2) : List UnoptimizedFunctionCompareRecord :=
  c.fwd.function_compare_records

/-- Modelled from the spec: the VarnodeCompareRecords of the current
orientation that satisfy the given condition. -/
def UnoptimizedProgramInfoCompare2.select_varnode_compare_records (c : UnoptimizedProgramInfoCompare2) (varnode_cmp_record_cond : VarnodeCompareRecord → Bool) : List VarnodeCompareRecord :=
  c.fwd.varnode_compare_records.filter varnode_cmp_record_cond

/-- Modelled from the spec: the primitive (decomposed) VarnodeCompareRecords
of the current orientation that satisfy the given condition. -/
def UnoptimizedProgramInfoCompare2.select_primitive_varnode_compare_records (c : UnoptimizedProgramInfoCompare2) (varnode_cmp_record_cond : VarnodeCompareRecord → Bool) : List VarnodeCompareRecord :=
  c.fwd.primitive_varnode_compare_records.filter varnode_cmp_record_cond

/-- Modelled from the spec: a Python range object (start, stop, step). -/
structure PyRange where
  start : Int
  stop : Int
  step : Int
  deriving DecidableEq

/-- Member list of a Python range with step 1 (the only step used by the
two compare-level scales). -/
def PyRange.toList (r : PyRange) : List Int :=
  (List.range (r.stop - r.start).toNat).map (fun i => r.start + (i : Int))

/-- Smallest member of a Python range with positive step. -/
def PyRange.min_member (r : PyRange) : Int := r.start

/-- Largest member of a Python range with step 1. -/
def PyRange.max_member (r : PyRange) : Int := r.stop - r.step

/-- Modelled from the spec: the NO_MATCH sentinel (lowest tier) of the
varnode compare-level taxonomy. -/
def VarnodeCompareLevel.NO_MATCH : Int := 0

/-- Modelled from the spec: an intermediate tier of the varnode scale. -/
def VarnodeCompareLevel.OVERLAP : Int := 1

/-- Modelled from the spec: an intermediate tier of the varnode scale. -/
def VarnodeCompareLevel.SUBSET : Int := 2

/-- Modelled from the spec: an intermediate tier of the varnode scale. -/
def VarnodeCompareLevel.ALIGNED : Int := 3

/-- Modelled from the spec: the exact-match (highest) tier of the
varnode compare-level taxonomy. -/
def VarnodeCompareLevel.MATCH : Int := 4

/-- Modelled from the spec: VarnodeCompareLevel.range() — a dense
integer scale from NO_MATCH (lowest) up to exact match (highest); the
spec fixes the shape of the scale but not the tier count, which this
model fixes at five tiers. -/
def VarnodeCompareLevel.range : PyRange := ⟨0, 5, 1⟩

/-- Modelled from the spec: the NO_MATCH sentinel of the separate
datatype compare-level taxonomy. -/
def DataTypeCompareLevel.NO_MATCH : Int := 0

/-- Modelled from the spec: an intermediate tier of the datatype scale. -/
def DataTypeCompareLevel.SUBSET : Int := 1

/-- Modelled from the spec: the exact-match tier of the datatype
compare-level taxonomy. -/
def DataTypeCompareLevel.MATCH : Int := 2

/-- Modelled from the spec: DataTypeCompareLevel.range(), fixed at three
tiers in this model. -/
def DataTypeCompareLevel.range : PyRange := ⟨0, 3, 1⟩

/-- Embedding of metrics.py normalize_range: from a range, a function
mapping a member of that range into [0,1]; Python None is Option.none. -/
def normalize_range (r : PyRange) (x : Option ℚ) : Option ℚ :=
  match x with
  | none => none
  | some q => some ((q - (r.start : ℚ)) / ((r.stop : ℚ) - (r.step : ℚ) - (r.start : ℚ)))

/-- Embedding of metrics.py varnode_compare_level_to_normalized_score. -/
def varnode_compare_level_to_normalized_score (lvl : Option ℚ) : Option ℚ :=
  normalize_range VarnodeCompareLevel.range lvl

/-- Embedding of metrics.py datatype_compare_level_to_normalized_score. -/
def datatype_compare_level_to_normalized_score (lvl : Option ℚ) : Option ℚ :=
  normalize_range DataTypeCompareLevel.range lvl

/-- Embedding of metrics.py function_compare_record_compared_filter. -/
def function_compare_record_compared_filter (fn_cmp : UnoptimizedFunctionCompareRecord) : Bool :=
  fn_cmp.is_comparison

/-- Embedding of metrics.py variable_base_filter: the variable is not a
parameter and has a single location (the source also reads the parent
function into a local but never uses it). -/
def variable_base_filter (var : Variable) : Bool :=
  !var.is_param && var.is_single_loc

/-- Embedding of metrics.py varnode_base_filter: the varnode lives in
the stack or global region and its parent variable, when present,
matches the variable base filter. -/
def varnode_base_filter (varnode : Varnode) : Bool :=
  (varnode.addr.addrtype == AddressType.ABSOLUTE || varnode.addr.addrtype == AddressType.STACK)
    && (match varnode.var with
        | some parent_var => variable_base_filter parent_var
        | none => true)

/-- Embedding of metrics.py varnode_compare_record_base_filter. -/
def varnode_compare_record_base_filter (record : VarnodeCompareRecord) : Bool :=
  varnode_base_filter record.get_varnode

/-- Embedding of metrics.py select_comparable_varnode_compare_records
(the lru_cache memoization is a pure-function optimization and is
dropped from the embedding). -/
def select_comparable_varnode_compare_records (cmp : UnoptimizedProgramInfoCompare2) (primitive : Bool) : List VarnodeCompareRecord :=
  if primitive then cmp.select_primitive_varnode_compare_records varnode_compare_record_base_filter
  else cmp.select_varnode_compare_records varnode_compare_record_base_filter

/-- Embedding of metrics.py select_comparable_varnodes. -/
def select_comparable_varnodes (cmp : UnoptimizedProgramInfoCompare2) (left : Bool) (primitive : Bool) : List Varnode :=
  let lcmp := if left then cmp else cmp.flip
  (select_comparable_varnode_compare_records lcmp primitive).map (fun record => record.get_varnode)

/-- Embedding of metrics.py varnodes_truth. -/
def varnodes_truth (cmp : UnoptimizedProgramInfoCompare2) (primitive : Bool) : List Varnode :=
  select_comparable_varnodes cmp true primitive

/-- Embedding of metrics.py varnodes_decomp. -/
def varnodes_decomp (cmp : UnoptimizedProgramInfoCompare2) (primitive : Bool) : List Varnode :=
  select_comparable_varnodes cmp false primitive

/-- Embedding of metrics.py bytes_truth (varnodes_truth is called with
its default primitive=False). -/
def bytes_truth (cmp : UnoptimizedProgramInfoCompare2) : Int :=
  ((varnodes_truth cmp false).map (fun varnode => varnode.size)).sum

/-- Embedding of metrics.py bytes_decomp. -/
def bytes_decomp (cmp : UnoptimizedProgramInfoCompare2) : Int :=
  ((varnodes_decomp cmp false).map (fun varnode => varnode.size)).sum

/-- Embedding of metrics.py bytes_found: the overlapped-byte total over
comparable records, clamped by `min` to never exceed bytes_truth. -/
def bytes_found (cmp : UnoptimizedProgramInfoCompare2) : Int :=
  let found := ((select_comparable_varnode_compare_records cmp false).map (fun record => record.bytes_overlapped)).sum
  min found (bytes_truth cmp)

/-- Embedding of metrics.py bytes_missed. -/
def bytes_missed (cmp : UnoptimizedProgramInfoCompare2) : Int :=
  max (bytes_truth cmp - bytes_found cmp) 0

/-- Embedding of metrics.py functions_truth. -/
def functions_truth (cmp : UnoptimizedProgramInfoCompare2) : List UnoptimizedFunction :=
  cmp.get_left.get_unoptimized_functions

/-- Embedding of metrics.py functions_decomp. -/
def functions_decomp (cmp : UnoptimizedProgramInfoCompare2) : List UnoptimizedFunction :=
  cmp.get_right.get_unoptimized_functions

/-- Embedding of metrics.py functions_found: the functions of the
compare records whose matched flag is set. -/
def functions_found (cmp : UnoptimizedProgramInfoCompare2) : List UnoptimizedFunction :=
  (cmp.select_function_compare_records.filter (fun record => record.is_comparison)).map
    (fun record => record.get_unoptimized_function)

/-- Embedding of metrics.py functions_missed: the functions of the
compare records whose matched flag is not set. -/
def functions_missed (cmp : UnoptimizedProgramInfoCompare2) : List UnoptimizedFunction :=
  (cmp.select_function_compare_records.filter (fun record => !record.is_comparison)).map
    (fun record => record.get_unoptimized_function)

/-- Embedding of metrics.py functions_extraneous. -/
def functions_extraneous (cmp : UnoptimizedProgramInfoCompare2) : List UnoptimizedFunction :=
  functions_missed cmp.flip

/-- Embedding of the metrics.py helper keeping the records whose
compare level is one of the given levels. -/
def _varnode_compare_records_match_levels (varnode_cmp_records : List VarnodeCompareRecord) (levels : List Int) : List VarnodeCompareRecord :=
  varnode_cmp_records.filter (fun record => levels.contains record.get_compare_level)

/-- Embedding of metrics.py varnode_compare_records_match_levels. -/
def varnode_compare_records_match_levels (cmp : UnoptimizedProgramInfoCompare2) (levels : List Int) (primitive : Bool) : List VarnodeCompareRecord :=
  _varnode_compare_records_match_levels (select_comparable_varnode_compare_records cmp primitive) levels

/-- Embedding of metrics.py varnodes_missed: ground-truth varnodes whose
record sits at the NO_MATCH sentinel. -/
def varnodes_missed (cmp : UnoptimizedProgramInfoCompare2) (primitive : Bool) : List Varnode :=
  (varnode_compare_records_match_levels cmp [VarnodeCompareLevel.NO_MATCH] primitive).map
    (fun record => record.get_varnode)

/-- Embedding of metrics.py varnodes_extraneous. -/
def varnodes_extraneous (cmp : UnoptimizedProgramInfoCompare2) (primitive : Bool) : List Varnode :=
  varnodes_missed cmp.flip primitive

/-- Embedding of the metrics.py helper keeping the records whose
compare level equals the given level exactly. -/
def _varnode_compare_records_matched_at_level (varnode_cmp_records : List VarnodeCompareRecord) (level : Int) : List VarnodeCompareRecord :=
  varnode_cmp_records.filter (fun record => record.get_compare_level == level)

/-- Embedding of metrics.py varnode_compare_records_matched_at_level. -/
def varnode_compare_records_matched_at_level (cmp : UnoptimizedProgramInfoCompare2) (level : Int) (primitive : Bool) : List VarnodeCompareRecord :=
  _varnode_compare_records_matched_at_level (select_comparable_varnode_compare_records cmp primitive) level

/-- Embedding of statistics.mean on the rationals. -/
def pymean (xs : List ℚ) : ℚ :=
  xs.sum / (xs.length : ℚ)

/-- Embedding of the metrics.py helper averaging the compare levels of a
record list; an empty list yields Python None. -/
def _varnodes_avg_compare_level (varnode_cmp_records : List VarnodeCompareRecord) : Option ℚ :=
  let compare_levels := varnode_cmp_records.map (fun record => (record.get_compare_level : ℚ))
  if compare_levels.length > 0 then some (pymean compare_levels) else none

/-- Embedding of metrics.py varnodes_avg_compare_level. -/
def varnodes_avg_compare_level (cmp : UnoptimizedProgramInfoCompare2) (primitive : Bool) : Option ℚ :=
  _varnodes_avg_compare_level (select_comparable_varnode_compare_records cmp primitive)

/-- Embedding of metrics.py varnodes_avg_compare_score. -/
def varnodes_avg_compare_score (cmp : UnoptimizedProgramInfoCompare2) (primitive : Bool) : Option ℚ :=
  varnode_compare_level_to_normalized_score (varnodes_avg_compare_level cmp primitive)

/-- Embedding of the metrics.py helper restricting the comparable
records to those whose varnode has the given metatype. -/
def _select_comparable_varnode_compare_records_metatype (cmp : UnoptimizedProgramInfoCompare2) (metatype : MetaType) (primitive : Bool) : List VarnodeCompareRecord :=
  (select_comparable_varnode_compare_records cmp primitive).filter
    (fun record => record.get_varnode.datatype.metatype == metatype)

/-- Embedding of metrics.py varnodes_avg_compare_level_metatype. -/
def varnodes_avg_compare_level_metatype (cmp : UnoptimizedProgramInfoCompare2) (metatype : MetaType) (primitive : Bool) : Option ℚ :=
  _varnodes_avg_compare_level (_select_comparable_varnode_compare_records_metatype cmp metatype primitive)

/-- Embedding of metrics.py varnodes_avg_compare_score_metatype. -/
def varnodes_avg_compare_score_metatype (cmp : UnoptimizedProgramInfoCompare2) (metatype : MetaType) (primitive : Bool) : Option ℚ :=
  varnode_compare_level_to_normalized_score (varnodes_avg_compare_level_metatype cmp metatype primitive)

/-- Python exceptions the embedded metrics can raise. -/
inductive PyErr where
  | zeroDivisionError
  deriving DecidableEq

/-- Result of a Python metric computation: a number, Python None (the
explicit undefined marker), or a raised exception. -/
inductive PyResult where
  | num : ℚ → PyResult
  | pyNone : PyResult
  | exn : PyErr → PyResult
  deriving DecidableEq

/-- Python true division of two integers: raises ZeroDivisionError on a
zero divisor, otherwise yields the exact quotient. -/
def pydiv (n d : Int) : PyResult :=
  if d = 0 then PyResult.exn PyErr.zeroDivisionError else PyResult.num ((n : ℚ) / (d : ℚ))

/-- Embedding of the "Bytes recovery fraction" metric body registered in
metrics.py make_metrics: bytes_found(cmp) / bytes_truth(cmp), with
Python division semantics. -/
def bytes_recovery_fraction_metric (cmp : UnoptimizedProgramInfoCompare2) : PyResult :=
  pydiv (bytes_found cmp) (bytes_truth cmp)

/-- Embedding of metrics.py array_elements_diff. -/
def array_elements_diff (cmp : VarnodeCompare2) : Int :=
  cmp.get_left.datatype.num_elements - cmp.get_right.datatype.num_elements

/-- Embedding of metrics.py array_elements_error. -/
def array_elements_error (cmp : VarnodeCompare2) : Int :=
  |array_elements_diff cmp|

/-- Embedding of metrics.py array_elements_error_ratio, with Python
division semantics. -/
def array_elements_error_ratio (cmp : VarnodeCompare2) : PyResult :=
  pydiv (array_elements_error cmp) cmp.get_left.datatype.num_elements

/-- Modelled from Python object semantics: a function object, which
Python hashes and compares by its identity. -/
structure PyFunctionObj where
  ref : Nat
  deriving DecidableEq

/-- Embedding of the metrics.py Metric class: display name and compute
function, plus the object identity the instance receives at
allocation. -/
structure Metric where
  objId : Nat
  display_name : String
  compute : PyFunctionObj
  deriving DecidableEq

/-- Embedding of Metric.__hash__: hash(self.compute), the hash of the
compute function object. -/
def Metric.pyHash (m : Metric) : Nat :=
  m.compute.ref

/-- The Metric class defines no __eq__, so Python equality between
Metric instances is the object-identity equality inherited from
`object`. -/
def Metric.pyEq (a b : Metric) : Bool :=
  a.objId == b.objId

/-- Concrete program with no functions. -/
def emptyProgInfo : UnoptimizedProgramInfo := ⟨[]⟩

/-- Concrete orientation view with no records at all. -/
def emptyView : CmpView := ⟨emptyProgInfo, [], [], []⟩

/-- Concrete comparison with empty ground truth and empty recovery. -/
def emptyCmp : UnoptimizedProgramInfoCompare2 := ⟨emptyView, emptyView⟩

/-- Concrete 4-byte integer datatype. -/
def dtInt4 : DataType := ⟨MetaType.INT, 4, 0, 0⟩

/-- Concrete 8-byte integer datatype. -/
def dtInt8 : DataType := ⟨MetaType.INT, 8, 0, 0⟩

/-- Concrete array datatype with zero elements. -/
def dtArr0 : DataType := ⟨MetaType.ARRAY, 0, 0, 1⟩

/-- Concrete ten-element array datatype. -/
def dtArr10 : DataType := ⟨MetaType.ARRAY, 40, 10, 1⟩

/-- Concrete global varnode of size 4. -/
def vnGlobal4 : Varnode := ⟨⟨AddressType.ABSOLUTE⟩, 4, dtInt4, none⟩

/-- Concrete stack varnode of size 8. -/
def vnStack8 : Varnode := ⟨⟨AddressType.STACK⟩, 8, dtInt8, none⟩

/-- Concrete comparable record fully matched with 4 bytes overlapped. -/
def recA : VarnodeCompareRecord := ⟨vnGlobal4, VarnodeCompareLevel.MATCH, 4⟩

/-- Concrete comparable record overlapped with 4 bytes overlapped. -/
def recB : VarnodeCompareRecord := ⟨vnStack8, VarnodeCompareLevel.OVERLAP, 4⟩

/-- Concrete orientation view with one matched function and two
comparable varnode records. -/
def sampleView : CmpView := ⟨⟨[⟨"main"⟩]⟩, [⟨⟨"main"⟩, true⟩], [recA, recB], [recA, recB]⟩

/-- Concrete comparison with two eligible ground-truth varnodes of
sizes 4 and 8 and overlaps of 4 and 4. -/
def sampleCmp : UnoptimizedProgramInfoCompare2 := ⟨sampleView, emptyView⟩

/-- Concrete array comparison pair whose left side has zero elements. -/
def arrCmp2zero : VarnodeCompare2 :=
  ⟨⟨⟨AddressType.ABSOLUTE⟩, 0, dtArr0, none⟩, ⟨⟨AddressType.ABSOLUTE⟩, 40, dtArr10, none⟩⟩

/-- First concrete Metric instance: object id 0, compute function 7. -/
def metricEx1 : Metric := ⟨0, "Functions found", ⟨7⟩⟩

/-- Second concrete Metric instance: object id 1, the same compute
function 7, a different display name. -/
def metricEx2 : Metric := ⟨1, "Found functions", ⟨7⟩⟩

/-! Helper lemmas shared by the claim theorems. -/

/-- The value of the varnode-level normalizer on a present level. -/
theorem varnode_score_eq (q : ℚ) :
    varnode_compare_level_to_normalized_score (some q) = some (q / 4) := by
  show some ((q - ((0:Int):ℚ)) / (((5:Int):ℚ) - ((1:Int):ℚ) - ((0:Int):ℚ))) = some (q / 4)
  norm_num

/-- The value of the datatype-level normalizer on a present level. -/
theorem datatype_score_eq (q : ℚ) :
    datatype_compare_level_to_normalized_score (some q) = some (q / 2) := by
  show some ((q - ((0:Int):ℚ)) / (((3:Int):ℚ) - ((1:Int):ℚ) - ((0:Int):ℚ))) = some (q / 2)
  norm_num

/-- A filter by a predicate and a filter by its negation split the
length of a list. -/
theorem length_filter_pos_neg {α : Type} (p : α → Bool) (l : List α) :
    (l.filter p).length + (l.filter (fun a => !p a)).length = l.length := by
  induction l with
  | nil => rfl
  | cons x xs ih =>
    by_cases h : p x = true <;> simp [List.filter_cons, h] <;> omega

/-- Sums of pointwise sums of two natural-valued functions split. -/
theorem list_sum_map_add_nat {α : Type} (l : List α) (f g : α → ℕ) :
    (l.map (fun a => f a + g a)).sum = (l.map f).sum + (l.map g).sum := by
  induction l with
  | nil => rfl
  | cons x xs ih => simp [ih]; omega

/-- Over a duplicate-free list containing `a`, the indicator of `a` sums
to one. -/
theorem sum_indicator_one (a : Int) (levels : List Int) (hnd : levels.Nodup) (hm : a ∈ levels) :
    (levels.map (fun l => if a = l then (1:ℕ) else 0)).sum = 1 := by
  induction levels with
  | nil => cases hm
  | cons x xs ih =>
    rcases List.mem_cons.mp hm with h | h
    · subst h
      have hx : a ∉ xs := (List.nodup_cons.mp hnd).1
      have hz : (xs.map (fun l => if a = l then (1:ℕ) else 0)).sum = 0 := by
        apply List.sum_eq_zero
        intro y hy
        obtain ⟨l, hl, he⟩ := List.mem_map.mp hy
        have hne : a ≠ l := fun hc => hx (hc ▸ hl)
        simp [hne] at he
        omega
      simp [hz]
    · have hxne : a ≠ x := by
        intro hc
        subst hc
        exact (List.nodup_cons.mp hnd).1 h
      have hrec := ih (List.nodup_cons.mp hnd).2 h
      simp [hxne, hrec]

/-- Exact-level counts over a duplicate-free level list covering every
record's level sum to the total record count. -/
theorem sum_counts_filter_eq_length (rs : List VarnodeCompareRecord) (levels : List Int)
    (hnd : levels.Nodup) (hmem : ∀ r ∈ rs, r.get_compare_level ∈ levels) :
    (levels.map (fun l => (rs.filter (fun record => record.get_compare_level == l)).length)).sum
      = rs.length := by
  induction rs with
  | nil => simp
  | cons r rs ih =>
    have hstep : levels.map (fun l => ((r :: rs).filter (fun record => record.get_compare_level == l)).length)
        = levels.map (fun l => (if r.get_compare_level = l then (1:ℕ) else 0)
            + (rs.filter (fun record => record.get_compare_level == l)).length) := by
      apply List.map_congr_left
      intro l hl
      by_cases h : r.get_compare_level = l <;> simp [List.filter_cons, h]
      omega
    rw [hstep, list_sum_map_add_nat,
      sum_indicator_one _ _ hnd (hmem r (List.mem_cons_self _ _)),
      ih (fun x hx => hmem x (List.mem_cons_of_mem _ hx)), List.length_cons]
    omega

/-! Claim theorems. -/

/-- C1 counterexample: on a comparison with an empty ground truth the
bytes recovery divisor is zero, yet the metric does not return the
explicit undefined marker (it raises); likewise the array element-count
error ratio on a pair whose left side has zero elements.  This refutes
the claim that a zero-divisor fraction is surfaced as an explicit
undefined result. -/
theorem zero_divisor_not_undefined :
    bytes_truth emptyCmp = 0 ∧
    bytes_recovery_fraction_metric emptyCmp ≠ PyResult.pyNone ∧
    arrCmp2zero.get_left.datatype.num_elements = 0 ∧
    array_elements_error_ratio arrCmp2zero ≠ PyResult.pyNone :=
  ⟨by decide, by decide, by decide, by decide⟩

/-- C1 amended: a zero divisor makes the bytes recovery fraction and the
array element-count error ratio raise ZeroDivisionError (a thrown
error) rather than return an explicit undefined result. -/
theorem zero_divisor_raises (c : UnoptimizedProgramInfoCompare2) (cmp2 : VarnodeCompare2)
    (h : bytes_truth c = 0) (h2 : cmp2.get_left.datatype.num_elements = 0) :
    bytes_recovery_fraction_metric c = PyResult.exn PyErr.zeroDivisionError ∧
    array_elements_error_ratio cmp2 = PyResult.exn PyErr.zeroDivisionError := by
  constructor
  · simp [bytes_recovery_fraction_metric, pydiv, h]
  · simp [array_elements_error_ratio, pydiv, h2]

/-- Witness for the amended C1 theorem at concrete zero-divisor inputs. -/
theorem zero_divisor_raises_witness :
    bytes_recovery_fraction_metric emptyCmp = PyResult.exn PyErr.zeroDivisionError ∧
    array_elements_error_ratio arrCmp2zero = PyResult.exn PyErr.zeroDivisionError :=
  zero_divisor_raises emptyCmp arrCmp2zero (by decide) (by decide)

/-- C2: bytes_found never exceeds bytes_truth and bytes_missed is
nonnegative; when the truth total is positive and every comparable
record's overlap count is nonnegative, the bytes recovery fraction is a
number in [0,1]. -/
theorem bytes_found_bounds (c : UnoptimizedProgramInfoCompare2) :
    (bytes_found c ≤ bytes_truth c ∧ 0 ≤ bytes_missed c) ∧
    (0 < bytes_truth c →
      (∀ r ∈ select_comparable_varnode_compare_records c false, 0 ≤ r.bytes_overlapped) →
      ∃ q : ℚ, bytes_recovery_fraction_metric c = PyResult.num q ∧ 0 ≤ q ∧ q ≤ 1) := by
  have hFT : bytes_found c ≤ bytes_truth c := by
    simp only [bytes_found]
    exact min_le_right _ _
  refine ⟨⟨hFT, ?_⟩, ?_⟩
  · simp only [bytes_missed]
    exact le_max_right _ _
  · intro hT hover
    have hfound : 0 ≤ ((select_comparable_varnode_compare_records c false).map
        (fun record => record.bytes_overlapped)).sum := by
      apply List.sum_nonneg
      intro x hx
      obtain ⟨r, hr, hrx⟩ := List.mem_map.mp hx
      subst hrx
      exact hover r hr
    have hF0 : 0 ≤ bytes_found c := by
      simp only [bytes_found]
      exact le_min hfound hT.le
    have hTne : bytes_truth c ≠ 0 := ne_of_gt hT
    refine ⟨(bytes_found c : ℚ) / (bytes_truth c : ℚ), ?_, ?_, ?_⟩
    · simp [bytes_recovery_fraction_metric, pydiv, hTne]
    · apply div_nonneg
      · exact_mod_cast hF0
      · exact_mod_cast hT.le
    · rw [div_le_one (by exact_mod_cast hT)]
      exact_mod_cast hFT

/-- Witness for C2 on the concrete spec scenario (truth sizes 4 and 8,
overlaps 4 and 4). -/
theorem bytes_found_bounds_witness :
    (bytes_found sampleCmp ≤ bytes_truth sampleCmp ∧ 0 ≤ bytes_missed sampleCmp) ∧
    ∃ q : ℚ, bytes_recovery_fraction_metric sampleCmp = PyResult.num q ∧ 0 ≤ q ∧ q ≤ 1 :=
  ⟨(bytes_found_bounds sampleCmp).1,
   (bytes_found_bounds sampleCmp).2 (by decide) (by decide)⟩

/-- C3: missed functions of a comparison equal the extraneous functions
of the flipped comparison, and for each granularity missed varnodes
equal the extraneous varnodes of the flipped comparison; the model
realises the upstream contract flip (flip c) = c by construction. -/
theorem missed_eq_extraneous_of_flip (c : UnoptimizedProgramInfoCompare2) :
    c.flip.flip = c ∧
    functions_missed c = functions_extraneous c.flip ∧
    ∀ primitive : Bool, varnodes_missed c primitive = varnodes_extraneous c.flip primitive :=
  ⟨rfl, rfl, fun _ => rfl⟩

/-- C4: the recovered-side comparable varnodes are exactly the varnodes
of the comparable records of the flipped comparison, i.e. the
ground-truth-side comparable varnodes of the inverted comparison. -/
theorem select_comparable_varnodes_right_via_flip (c : UnoptimizedProgramInfoCompare2) (primitive : Bool) :
    select_comparable_varnodes c false primitive
        = (select_comparable_varnode_compare_records c.flip primitive).map
            (fun record => record.get_varnode) ∧
    select_comparable_varnodes c false primitive = select_comparable_varnodes c.flip true primitive :=
  ⟨rfl, rfl⟩

/-- C5: both compare-level normalizers send None to None, the scale
minimum to 0 and the scale maximum to 1, and are monotone non-decreasing
with values in [0,1] across the scale's range. -/
theorem compare_level_normalizers_spec :
    (varnode_compare_level_to_normalized_score none = none ∧
     varnode_compare_level_to_normalized_score (some (VarnodeCompareLevel.range.min_member : ℚ)) = some 0 ∧
     varnode_compare_level_to_normalized_score (some (VarnodeCompareLevel.range.max_member : ℚ)) = some 1 ∧
     ∀ x y : ℚ, (VarnodeCompareLevel.range.min_member : ℚ) ≤ x → x ≤ y →
        y ≤ (VarnodeCompareLevel.range.max_member : ℚ) →
        ∃ a b, varnode_compare_level_to_normalized_score (some x) = some a ∧
          varnode_compare_level_to_normalized_score (some y) = some b ∧
          a ≤ b ∧ 0 ≤ a ∧ b ≤ 1) ∧
    (datatype_compare_level_to_normalized_score none = none ∧
     datatype_compare_level_to_normalized_score (some (DataTypeCompareLevel.range.min_member : ℚ)) = some 0 ∧
     datatype_compare_level_to_normalized_score (some (DataTypeCompareLevel.range.max_member : ℚ)) = some 1 ∧
     ∀ x y : ℚ, (DataTypeCompareLevel.range.min_member : ℚ) ≤ x → x ≤ y →
        y ≤ (DataTypeCompareLevel.range.max_member : ℚ) →
        ∃ a b, datatype_compare_level_to_normalized_score (some x) = some a ∧
          datatype_compare_level_to_normalized_score (some y) = some b ∧
          a ≤ b ∧ 0 ≤ a ∧ b ≤ 1) := by
  have hvmin : ((VarnodeCompareLevel.range.min_member : Int) : ℚ) = 0 := by
    norm_num [VarnodeCompareLevel.range, PyRange.min_member]
  have hvmax : ((VarnodeCompareLevel.range.max_member : Int) : ℚ) = 4 := by
    norm_num [VarnodeCompareLevel.range, PyRange.max_member]
  have hdmin : ((DataTypeCompareLevel.range.min_member : Int) : ℚ) = 0 := by
    norm_num [DataTypeCompareLevel.range, PyRange.min_member]
  have hdmax : ((DataTypeCompareLevel.range.max_member : Int) : ℚ) = 2 := by
    norm_num [DataTypeCompareLevel.range, PyRange.max_member]
  constructor
  · refine ⟨rfl, ?_, ?_, ?_⟩
    · rw [hvmin, varnode_score_eq]
      norm_num
    · rw [hvmax, varnode_score_eq]
      norm_num
    · intro x y h1 h2 h3
      rw [hvmin] at h1
      rw [hvmax] at h3
      refine ⟨x / 4, y / 4, varnode_score_eq x, varnode_score_eq y, ?_, ?_, ?_⟩ <;> linarith
  · refine ⟨rfl, ?_, ?_, ?_⟩
    · rw [hdmin, datatype_score_eq]
      norm_num
    · rw [hdmax, datatype_score_eq]
      norm_num
    · intro x y h1 h2 h3
      rw [hdmin] at h1
      rw [hdmax] at h3
      refine ⟨x / 2, y / 2, datatype_score_eq x, datatype_score_eq y, ?_, ?_, ?_⟩ <;> linarith

/-- Witness for C5 at concrete in-range levels of both scales. -/
theorem compare_level_normalizers_spec_witness :
    (∃ a b, varnode_compare_level_to_normalized_score (some 1) = some a ∧
       varnode_compare_level_to_normalized_score (some 3) = some b ∧ a ≤ b ∧ 0 ≤ a ∧ b ≤ 1) ∧
    (∃ a b, datatype_compare_level_to_normalized_score (some 0) = some a ∧
       datatype_compare_level_to_normalized_score (some 2) = some b ∧ a ≤ b ∧ 0 ≤ a ∧ b ≤ 1) :=
  ⟨compare_level_normalizers_spec.1.2.2.2 1 3
      (by norm_num [VarnodeCompareLevel.range, PyRange.min_member])
      (by norm_num)
      (by norm_num [VarnodeCompareLevel.range, PyRange.max_member]),
   compare_level_normalizers_spec.2.2.2.2 0 2
      (by norm_num [DataTypeCompareLevel.range, PyRange.min_member])
      (by norm_num)
      (by norm_num [DataTypeCompareLevel.range, PyRange.max_member])⟩

/-- C6: when the comparable-record selection is empty the average
compare level is None and the average compare score built on it is also
None, both for the plain and for the metatype-restricted variants. -/
theorem empty_selection_gives_none (c : UnoptimizedProgramInfoCompare2) (primitive : Bool) :
    (select_comparable_varnode_compare_records c primitive = [] →
      varnodes_avg_compare_level c primitive = none ∧
      varnodes_avg_compare_score c primitive = none) ∧
    (∀ metatype : MetaType,
      _select_comparable_varnode_compare_records_metatype c metatype primitive = [] →
        varnodes_avg_compare_level_metatype c metatype primitive = none ∧
        varnodes_avg_compare_score_metatype c metatype primitive = none) := by
  constructor
  · intro h
    have h1 : varnodes_avg_compare_level c primitive = none := by
      simp [varnodes_avg_compare_level, _varnodes_avg_compare_level, h]
    refine ⟨h1, ?_⟩
    simp [varnodes_avg_compare_score, h1, varnode_compare_level_to_normalized_score, normalize_range]
  · intro metatype h
    have h1 : varnodes_avg_compare_level_metatype c metatype primitive = none := by
      simp [varnodes_avg_compare_level_metatype, _varnodes_avg_compare_level, h]
    refine ⟨h1, ?_⟩
    simp [varnodes_avg_compare_score_metatype, h1, varnode_compare_level_to_normalized_score,
      normalize_range]

/-- Witness for C6 on the concrete empty comparison. -/
theorem empty_selection_gives_none_witness :
    (varnodes_avg_compare_level emptyCmp false = none ∧
     varnodes_avg_compare_score emptyCmp false = none) ∧
    (varnodes_avg_compare_level_metatype emptyCmp MetaType.INT false = none ∧
     varnodes_avg_compare_score_metatype emptyCmp MetaType.INT false = none) :=
  ⟨(empty_selection_gives_none emptyCmp false).1 (by decide),
   (empty_selection_gives_none emptyCmp false).2 MetaType.INT (by decide)⟩

/-- C7: provided every comparable record's compare level lies in the
varnode compare-level taxonomy, the per-level matched counts summed
over all tiers equal the total number of comparable records. -/
theorem matched_at_level_counts_sum (c : UnoptimizedProgramInfoCompare2) (primitive : Bool)
    (h : ∀ r ∈ select_comparable_varnode_compare_records c primitive,
      r.get_compare_level ∈ VarnodeCompareLevel.range.toList) :
    (VarnodeCompareLevel.range.toList.map
        (fun level => (varnode_compare_records_matched_at_level c level primitive).length)).sum
      = (select_comparable_varnode_compare_records c primitive).length := by
  have hnd : VarnodeCompareLevel.range.toList.Nodup := by decide
  exact sum_counts_filter_eq_length _ _ hnd h

/-- Witness for C7 on the concrete two-record comparison. -/
theorem matched_at_level_counts_sum_witness :
    (VarnodeCompareLevel.range.toList.map
        (fun level => (varnode_compare_records_matched_at_level sampleCmp level false).length)).sum
      = (select_comparable_varnode_compare_records sampleCmp false).length :=
  matched_at_level_counts_sum sampleCmp false (by decide)

/-- C8: a variable passes the base filter exactly when it is not a
parameter and has a single storage location; a varnode passes exactly
when it is absolute/global or stack addressed and either owns no
variable or its owning variable passes the variable filter. -/
theorem base_filter_characterization :
    (∀ var : Variable, variable_base_filter var = true ↔
      (var.is_param = false ∧ var.is_single_loc = true)) ∧
    (∀ varnode : Varnode, varnode_base_filter varnode = true ↔
      ((varnode.addr.addrtype = AddressType.ABSOLUTE ∨ varnode.addr.addrtype = AddressType.STACK) ∧
       (varnode.var = none ∨ ∃ pv, varnode.var = some pv ∧ variable_base_filter pv = true))) := by
  constructor
  · intro var
    simp [variable_base_filter]
  · intro varnode
    cases hv : varnode.var with
    | none => simp [varnode_base_filter, hv]
    | some pv => simp [varnode_base_filter, hv]

/-- C10: found and missed functions partition the function compare
records by the matched flag, so their lengths sum to the number of
records. -/
theorem functions_found_missed_partition (c : UnoptimizedProgramInfoCompare2) :
    (functions_found c).length + (functions_missed c).length
      = c.select_function_compare_records.length := by
  simp only [functions_found, functions_missed, List.length_map]
  exact length_filter_pos_neg _ _

/-- C9: two Metric instances built with the same compute function and
different display names share a hash but are not Python-equal, because
the class overrides only __hash__ and leaves __eq__ as object identity;
this contradicts the claim that equality is determined by the compute
function and matches the source comment's stated intent instead. -/
theorem metric_identity_eq_not_compute_eq :
    metricEx1.compute = metricEx2.compute ∧
    Metric.pyHash metricEx1 = Metric.pyHash metricEx2 ∧
    Metric.pyEq metricEx1 metricEx2 = false ∧
    metricEx1.display_name ≠ metricEx2.display_name := by
  refine ⟨rfl, rfl, rfl, ?_⟩
  decide
